import Mathlib

/-
  Verification development for the book-preview extraction service.

  The definitions below are shallow embeddings of the JavaScript source in
  src/apps/processor/src/services/bookInfoService.js and
  src/apps/processor/src/services/bookProcessor.js.  External effects
  (HTTP lookups, the scripted browser, the vision model, the filesystem)
  are modelled as explicit environments; machine behaviour that the source
  relies on (JS string truthiness, float half-point scores) is modelled
  exactly, with comments at each point of translation.
-/

/- ===== JavaScript string primitives ===== -/

/-- JS String.prototype.toLowerCase. ASCII folding, which covers every
string the embedded code ever compares (keywords, "yes"/"no" replies). -/
def lower (s : String) : String := String.mk (s.data.map Char.toLower)

/-- Helper for substring containment over character lists. -/
def includesAux (pat : List Char) : List Char → Bool
  | [] => pat.isEmpty
  | c :: rest => List.isPrefixOf pat (c :: rest) || includesAux pat rest

/-- JS String.prototype.includes: `strIncludes s pat` holds iff `pat`
occurs contiguously inside `s`. -/
def strIncludes (s pat : String) : Bool := includesAux pat.data s.data

/-- JS String.prototype.startsWith (also the anchored regex test below). -/
def strStartsWith (s pat : String) : Bool := List.isPrefixOf pat.data s.data

/-- Helper for splitting on a single separator character. -/
def splitCharAux (sep : Char) : List Char → List Char → List (List Char)
  | [], acc => [acc.reverse]
  | c :: rest, acc =>
    if c = sep then acc.reverse :: splitCharAux sep rest []
    else splitCharAux sep rest (c :: acc)

/-- JS String.prototype.split with a one-character separator: every
occurrence separates, empty segments are kept, splitting the empty string
yields one empty segment. -/
def splitChar (sep : Char) (s : String) : List String :=
  (splitCharAux sep s.data []).map String.mk

/- ===== Fiction classification (bookInfoService.js) ===== -/

/-- The fixed non-fiction keyword vocabulary of `isFictionCategory`
(bookInfoService.js lines 195-216). -/
def nonFictionKeywords : List String :=
  ["biography", "history", "science", "technology", "business", "self-help",
   "cooking", "travel", "reference", "education", "philosophy", "religion",
   "politics", "economics", "medicine", "law", "mathematics", "computers",
   "nature", "art history"]

/-- One loop body of `isFictionCategory`: a category tag signals non-fiction
when its lowercasing contains any keyword of the list, or contains
"non-fiction" or "nonfiction" (bookInfoService.js lines 219-229). -/
def categoryNonFictionSignal (category : String) : Bool :=
  (nonFictionKeywords.any fun keyword => strIncludes (lower category) keyword)
  || strIncludes (lower category) "non-fiction"
  || strIncludes (lower category) "nonfiction"

/-- `isFictionCategory(categories)` (bookInfoService.js lines 190-232):
default to fiction when the tag list is null/empty (the null case of the
JS argument is folded into the empty list); otherwise fiction iff no tag
carries a non-fiction signal (the JS for-loop returns false at the first
signalling tag, which is exactly `!any`). -/
def isFictionCategory (categories : List String) : Bool :=
  if categories.length = 0 then true
  else !(categories.any categoryNonFictionSignal)

/-- The fiction-indicative vocabulary of `improvedFictionDetection`
(bookInfoService.js lines 21-26). -/
def fictionWords : List String :=
  ["novel", "fiction", "story", "adventure", "fantasy",
   "protagonist", "character", "hero", "magical", "romance",
   "thriller", "mystery", "sci-fi", "science fiction", "dystopian",
   "journey", "tale", "legend", "epic", "saga"]

/-- The non-fiction-indicative vocabulary of `improvedFictionDetection`
(bookInfoService.js lines 29-35). -/
def nonfictionWords : List String :=
  ["history", "guide", "analysis", "research", "biography",
   "autobiography", "memoir", "reference", "textbook", "examination",
   "study", "report", "handbook", "manual", "investigation",
   "philosophy", "theory", "argument", "thesis", "exploration",
   "account", "chronicle", "journal", "essay", "documentary"]

/-- Number of vocabulary words that occur in the (lowercased) description:
the two `forEach`/`includes` counting loops of `improvedFictionDetection`. -/
def countSignals (description : String) (words : List String) : Nat :=
  (words.filter fun w => strIncludes (lower description) w).length

/-- The anchored case-insensitive title patterns of the regex
`/^(how to|the art of|introduction to|guide to|principles of|history of|the science of)/i`. -/
def nonFictionTitleStarts : List String :=
  ["how to", "the art of", "introduction to", "guide to",
   "principles of", "history of", "the science of"]

/-- `improvedFictionDetection(categories, description, title)`
(bookInfoService.js lines 3-71).  Signals are scaled by 2 so that the JS
`fictionSignals += 0.5` short-title bonus is the integer 1; all JS float
values occurring here are half-integers on which float arithmetic and
comparison are exact, so the scaled naturals compare identically.
The `if (description)` / `if (title)` truthiness guards are modelled as
emptiness tests. -/
def improvedFictionDetection (categories : List String) (description title : String) : Bool :=
  if categories.length ≠ 0 then isFictionCategory categories
  else
    let fictionSignals2 :=
      (if description ≠ "" then 2 * countSignals description fictionWords else 0)
      + (if title ≠ "" ∧ (splitChar ' ' title).length ≤ 3 then 1 else 0)
    let nonfictionSignals2 :=
      (if description ≠ "" then 2 * countSignals description nonfictionWords else 0)
      + (if title ≠ "" ∧ nonFictionTitleStarts.any (fun p => strStartsWith (lower title) p)
         then 4 else 0)
    if nonfictionSignals2 < fictionSignals2 then true
    else if fictionSignals2 < nonfictionSignals2 then false
    else true

/- ===== Bibliographic resolver (bookInfoService.js lines 74-188) ===== -/

/-- The normalized record a provider lookup returns (title, authors,
category tags, description, identifiers, preview link, volume id). -/
structure ProviderRecord where
  title : String
  authors : List String
  categories : List String
  description : Option String
  previewLink : Option String
  volumeId : String
  isbn13 : Option String
  isbn10 : Option String

/-- The partially-filled identity guess handed to `fetchBookInfo`
(fields extracted upstream from the cover image; any may be null). -/
structure BookDetails where
  title : Option String
  author : Option String
  isbn : Option String
  isFiction : Option Bool

/-- The object `fetchBookInfo` / `fetchBookByISBN` / `searchBookAPI`
return.  Note: this object carries no `categories` field, exactly as in
the source. -/
structure BookInfo where
  title : String
  author : String
  isFiction : Bool
  isbn : Option String
  description : Option String
  previewLink : Option String
  volumeId : Option String
deriving DecidableEq

/-- External bibliographic lookup service: `none` models a thrown error or
an empty `items` array (both raise in the JS source). -/
structure ResolverEnv where
  isbnLookup : String → Option ProviderRecord
  search : String → Option ProviderRecord

/-- JS `x || null` on a nullable string: the empty string collapses to null. -/
def orNull (o : Option String) : Option String :=
  if (o.getD "") = "" then none else o

/-- Result shaping of `fetchBookByISBN` (bookInfoService.js lines 133-143). -/
def bookInfoOfISBN (isbn : String) (book : ProviderRecord) : BookInfo :=
  { title := book.title,
    author := book.authors.headD "Unknown",
    isFiction := isFictionCategory book.categories,
    isbn := some isbn,
    description := orNull book.description,
    previewLink := orNull book.previewLink,
    volumeId := some book.volumeId }

/-- `fetchBookByISBN(isbn)` (bookInfoService.js lines 125-151). -/
def fetchBookByISBN (env : ResolverEnv) (isbn : String) : Option BookInfo :=
  (env.isbnLookup isbn).map (bookInfoOfISBN isbn)

/-- Result shaping of `searchBookAPI` (bookInfoService.js lines 163-180):
the ISBN is the ISBN_13 identifier, else the ISBN_10 one, else null. -/
def bookInfoOfSearch (book : ProviderRecord) : BookInfo :=
  { title := book.title,
    author := book.authors.headD "Unknown",
    isFiction := isFictionCategory book.categories,
    isbn := match orNull book.isbn13 with
            | some s => some s
            | none => orNull book.isbn10,
    description := orNull book.description,
    previewLink := orNull book.previewLink,
    volumeId := some book.volumeId }

/-- `searchBookAPI(query)` (bookInfoService.js lines 158-188). -/
def searchBookAPI (env : ResolverEnv) (query : String) : Option BookInfo :=
  (env.search query).map bookInfoOfSearch

/-- Query building of `fetchBookInfo` (lines 89-92): append the author to
the title when it is truthy and not the sentinel "Unknown". -/
def searchQueryOf (bd : BookDetails) (title : String) : String :=
  let a := bd.author.getD ""
  if a ≠ "" ∧ a ≠ "Unknown" then title ++ " " ++ a else title

/-- The best-effort identity returned by the outer catch of
`fetchBookInfo` (lines 113-121); a null `isFiction` input is merged with
undefined and defaults to true. -/
def fallbackBookInfo (bd : BookDetails) : BookInfo :=
  { title := if (bd.title.getD "") = "" then "Unknown Title" else bd.title.getD "",
    author := if (bd.author.getD "") = "" then "Unknown Author" else bd.author.getD "",
    isFiction := bd.isFiction.getD true,
    isbn := orNull bd.isbn,
    description := none,
    previewLink := none,
    volumeId := none }

/-- The exact-ISBN branch of `fetchBookInfo` (lines 79-85): entered only
when the ISBN field is truthy; `none` when it is absent, empty, or the
lookup raised. -/
def isbnPathResult (env : ResolverEnv) (bd : BookDetails) : Option BookInfo :=
  match bd.isbn with
  | some isbn => if isbn ≠ "" then fetchBookByISBN env isbn else none
  | none => none

/-- `fetchBookInfo(bookDetails)` (bookInfoService.js lines 74-123).
On the search path the returned object's `isFiction` is overwritten with
`improvedFictionDetection(bookInfo.categories || [], ...)`; the object
`searchBookAPI` returns has no `categories` field, so that first argument
is always the empty list. -/
def fetchBookInfo (env : ResolverEnv) (bd : BookDetails) : BookInfo :=
  match isbnPathResult env bd with
  | some info => info
  | none =>
    match bd.title with
    | some t =>
      if t ≠ "" then
        match searchBookAPI env (searchQueryOf bd t) with
        | some info =>
          { info with isFiction :=
              improvedFictionDetection [] (info.description.getD "") info.title }
        | none => fallbackBookInfo bd
      else fallbackBookInfo bd
    | none => fallbackBookInfo bd

/-- Spec-side restatement of the no-tag classification heuristic, written
from the spec's words: count fiction-indicative vs non-fiction-indicative
vocabulary occurrences in the description, add a fixed bonus (2 points,
here scaled to 4) to the non-fiction score for an instructional title
pattern, a small bonus (0.5, here scaled to 1) to the fiction score for a
short title of at most 3 words, higher score wins and a tie defaults to
fiction. -/
def specHeuristicIsFiction (description title : String) : Bool :=
  let fictionScore2 := 2 * countSignals description fictionWords
    + (if title ≠ "" ∧ (splitChar ' ' title).length ≤ 3 then 1 else 0)
  let nonfictionScore2 := 2 * countSignals description nonfictionWords
    + (if title ≠ "" ∧ nonFictionTitleStarts.any (fun p => strStartsWith (lower title) p)
       then 4 else 0)
  decide (nonfictionScore2 ≤ fictionScore2)

/- ===== Page locator loop (bookInfoService.js lines 502-692) ===== -/

/-- JS whitespace as used by String.prototype.trim (the characters that
can occur around the classifier's one-word reply). -/
def jsWhitespace (c : Char) : Bool :=
  c = ' ' || c = '\n' || c = '\t' || c = '\r'

/-- JS String.prototype.trim. -/
def strTrim (s : String) : String :=
  String.mk (((s.data.dropWhile jsWhitespace).reverse.dropWhile jsWhitespace).reverse)

/-- `isFirstPage(screenshot)` (bookInfoService.js lines 442-482): the
vision call's reply is affirmative iff its trimmed lowercasing contains
"yes".  `none` as input models the model call throwing; the error is
caught, only logged, and the function then falls off its end — it returns
undefined, modelled as `none`. -/
def isFirstPage (modelReply : Option String) : Option Bool :=
  match modelReply with
  | some t => some (strIncludes (lower (strTrim t)) "yes")
  | none => none

/-- One screenshot as retained by the loop: the 1-based loop index it was
pushed with, the viewer page it was taken of, and its (base64) content. -/
structure Screenshot where
  index : Nat
  page : Nat
  data : String
deriving DecidableEq

/-- The mutable state threaded through the capture loop: the viewer's
current page, plus instrumentation counters (classifier calls issued,
page-turn clicks attempted, pushes onto the inner `screenshots` array). -/
structure LoopSt where
  page : Nat
  classCalls : Nat
  clickAttempts : Nat
  innerPushes : Nat
deriving DecidableEq

/-- The external surface `extractBookScreenshots` drives.  `launchOk`:
the browser launch succeeds (when false, `browser` is never assigned).
`navOk`: page setup, navigation and the wait for the page-turn control
succeed.  `shotFault i`: `page.screenshot()` throws at loop iteration
`i`.  `image p`: the base64 content of a screenshot of viewer page `p`.
`reply p`: the classifier model's reply on the screenshot of page `p`
(`none` = the call throws).  `clickOk p`: activating the page-turn
control while page `p` is shown succeeds (advancing to `p+1`).
`saveFault`: the debug write of the found screenshot to disk throws. -/
structure ViewerEnv where
  launchOk : Bool
  navOk : Bool
  shotFault : Nat → Bool
  image : Nat → String
  reply : Nat → Option String
  clickOk : Nat → Bool
  saveFault : Bool

/-- The page-turn attempt (bookInfoService.js lines 618-628 and 634-644):
the click is wrapped in its own try/catch, so a failure only logs
"Could not click next page button" and leaves the viewer page unchanged. -/
def attemptClick (env : ViewerEnv) (st : LoopSt) : LoopSt :=
  { st with clickAttempts := st.clickAttempts + 1,
            page := if env.clickOk st.page then st.page + 1 else st.page }

/-- How one run of the `for` loop of lines 598-669 ends: a content page
found and pushed, the 15 iterations exhausted without a hit, or an
exception escaping to the outer catch. -/
inductive LoopOut where
  | found : Screenshot → LoopSt → LoopOut
  | exhausted : LoopSt → LoopOut
  | fault : LoopSt → LoopOut
deriving DecidableEq

/-- The state at loop exit, for every exit kind. -/
def LoopOut.st : LoopOut → LoopSt
  | .found _ s => s
  | .exhausted s => s
  | .fault s => s

/-- The `for (let i = 1; i <= 15; i++)` body (bookInfoService.js lines
598-669), with `fuel` the remaining iterations and `i` the loop counter.
Per iteration: screenshot the current page (a throw escapes to the outer
catch), classify it (`?? false` coerces an undefined classifier result),
and then either attempt a page turn and continue ("not yet"), or — on an
affirmative classification of a non-empty screenshot — for fiction first
attempt one further page turn, then push the screenshot that was taken
BEFORE that further turn, attempt the debug disk write (a throw escapes
to the outer catch), and break.  An empty screenshot only logs and
continues. -/
def runLoop (env : ViewerEnv) (fiction : Bool) : Nat → Nat → LoopSt → LoopOut
  | 0, _, st => .exhausted st
  | fuel + 1, i, st =>
    if env.shotFault i then .fault st
    else
      let shot := env.image st.page
      let st1 := { st with classCalls := st.classCalls + 1 }
      let foundfirst := (isFirstPage (env.reply st.page)).getD false
      if foundfirst = false then
        runLoop env fiction fuel (i + 1) (attemptClick env st1)
      else if shot.length > 0 then
        let st2 := if fiction then attemptClick env st1 else st1
        let st3 := { st2 with innerPushes := st2.innerPushes + 1 }
        if env.saveFault then .fault st3
        else .found { index := i, page := st.page, data := shot } st3
      else
        runLoop env fiction fuel (i + 1) st1

/-- What `extractBookScreenshots` returns, together with the observable
session facts the claims speak about.  `screenshots` is the array of the
returned object; on the catch path that is the OUTER `screenshots`
constant of line 506, which nothing ever pushes to (the loop pushes to
the inner array declared at line 572 that shadows it), hence it is empty
there.  `closed` records whether the `finally` block called
`browser.close()`; `finalPage` is the viewer page at exit and
`innerPushes` the length of the shadowed inner array. -/
structure RunResult where
  launched : Bool
  closed : Bool
  success : Bool
  screenshots : List Screenshot
  errorPath : Bool
  classifierCalls : Nat
  clickAttempts : Nat
  innerPushes : Nat
  finalPage : Nat
deriving DecidableEq

/-- `extractBookScreenshots(bookId, bookIsFiction)` (bookInfoService.js
lines 502-692).  Launch failure: `browser` was never assigned, the catch
returns `success:false` with the outer (empty) array and the finally has
nothing to close.  Navigation/setup failure: same catch return, but the
finally closes the browser.  Otherwise the loop of `runLoop` decides the
exit: on `found` the inner array holds the one pushed screenshot and
`success` is true; on exhaustion the inner array is empty so
`success:false`; on a fault the catch branch returns the outer, always
empty, array.  The finally closes the browser on all three. -/
def extractBookScreenshots (env : ViewerEnv) (bookIsFiction : Bool) : RunResult :=
  if env.launchOk = false then
    { launched := false, closed := false, success := false, screenshots := [],
      errorPath := true, classifierCalls := 0, clickAttempts := 0,
      innerPushes := 0, finalPage := 1 }
  else if env.navOk = false then
    { launched := true, closed := true, success := false, screenshots := [],
      errorPath := true, classifierCalls := 0, clickAttempts := 0,
      innerPushes := 0, finalPage := 1 }
  else
    match runLoop env bookIsFiction 15 1 { page := 1, classCalls := 0, clickAttempts := 0, innerPushes := 0 } with
    | .found shot st =>
      { launched := true, closed := true, success := true, screenshots := [shot],
        errorPath := false, classifierCalls := st.classCalls,
        clickAttempts := st.clickAttempts, innerPushes := st.innerPushes,
        finalPage := st.page }
    | .exhausted st =>
      { launched := true, closed := true, success := false, screenshots := [],
        errorPath := false, classifierCalls := st.classCalls,
        clickAttempts := st.clickAttempts, innerPushes := st.innerPushes,
        finalPage := st.page }
    | .fault st =>
      { launched := true, closed := true, success := false, screenshots := [],
        errorPath := true, classifierCalls := st.classCalls,
        clickAttempts := st.clickAttempts, innerPushes := st.innerPushes,
        finalPage := st.page }

/-- Pointwise replacement of a throwing classifier call by an explicit
"no" reply, used to state that a classifier failure behaves exactly like
a negative verdict. -/
def coerceNoReply (env : ViewerEnv) : ViewerEnv :=
  { env with reply := fun p => some (match env.reply p with
      | some t => t
      | none => "no") }

/- ===== Fallback text cascade (bookProcessor.js lines 138-337) ===== -/

/-- Split state machine for the JS `fullText.split(/\n\n+/)`: `acc` holds
the current paragraph reversed, `nl` the count of newline characters read
but not yet committed.  A run of two or more newlines is one separator;
a single newline stays inside the paragraph. -/
def blankSplitGo : List Char → List Char → Nat → List String
  | [], acc, nl =>
    if 2 ≤ nl then [String.mk acc.reverse, ""]
    else [String.mk (acc.reverse ++ List.replicate nl '\n')]
  | c :: rest, acc, nl =>
    if c = '\n' then blankSplitGo rest acc (nl + 1)
    else if 2 ≤ nl then String.mk acc.reverse :: blankSplitGo rest [c] 0
    else blankSplitGo rest (c :: (List.replicate nl '\n' ++ acc)) 0

/-- JS `fullText.split(/\n\n+/)`: paragraphs split on blank-line
boundaries (bookProcessor.js line 209). -/
def splitOnBlankLines (s : String) : List String :=
  blankSplitGo s.data [] 0

/-- JS Array.prototype.join. -/
def joinWith (sep : String) : List String → String
  | [] => ""
  | x :: xs => xs.foldl (fun acc y => acc ++ sep ++ y) x

/-- The archive text window of bookProcessor.js lines 209-218: paragraphs
from the blank-line split, `contentStart = Math.min(30, Math.floor(paragraphs.length * 0.1))`,
five further paragraphs skipped for fiction, then
`paragraphs.slice(start, start + 10).join('\n\n')`.
`Math.floor(n * 0.1)` equals `n / 10` in the naturals: the double closest
to 0.1 exceeds 1/10, so `n * 0.1` computed in doubles never rounds below
the integer `n / 10`, and it stays below `n / 10 + 1`; the `min` then
matches exactly. -/
def archiveWindow (fullText : String) (isFiction : Bool) : String :=
  let paragraphs := splitOnBlankLines fullText
  let contentStart := min 30 (paragraphs.length / 10)
  let startParagraph := if isFiction then contentStart + 5 else contentStart
  joinWith "\n\n" ((paragraphs.drop startParagraph).take 10)

/-- The acceptance test of bookProcessor.js line 220:
`if (pageContent && pageContent.length > 200)`. -/
def archiveAccept (fullText : String) (isFiction : Bool) : Bool :=
  let w := archiveWindow fullText isFiction
  decide (w ≠ "" ∧ 200 < w.length)

/-- Spec-side restatement of the archive window, written from the spec's
words: split the transcript on blank-line boundaries, skip a front-matter
span of 10% of the paragraph count capped at 30, plus five further
paragraphs for fiction, and take the window of the next ten paragraphs
joined by blank lines. -/
def specArchiveWindow (fullText : String) (isFiction : Bool) : String :=
  let paragraphs := splitOnBlankLines fullText
  let frontMatter := min (paragraphs.length / 10) 30
  let fictionSkip : Nat := if isFiction then 5 else 0
  joinWith "\n\n" ((paragraphs.drop (frontMatter + fictionSkip)).take 10)

/-- Consume characters up to and including the next unescaped tag close. -/
def dropTag : List Char → List Char
  | [] => []
  | c :: rest => if c = '>' then rest else dropTag rest

/-- Length bound used for termination of the tag stripper. -/
theorem dropTag_length_le (l : List Char) : (dropTag l).length ≤ l.length := by
  induction l with
  | nil => simp [dropTag]
  | cons c rest ih =>
    by_cases h : c = '>'
    · simp [dropTag, h]
    · simp only [dropTag, h, if_false]
      exact Nat.le_succ_of_le ih

/-- The regex `/<\/?[^>]+(>|$)/g` of bookProcessor.js line 266: a `<`
followed by at least one non-`>` character starts a tag that runs to the
next `>` (inclusive) or to the end of the string; everything else is kept.
(A lone `<` at the end, or `<>` with nothing between, matches nothing.) -/
def stripTagsGo : List Char → List Char
  | [] => []
  | c :: rest =>
    if c = '<' then
      match rest with
      | [] => ['<']
      | d :: rest2 =>
        if d = '>' then '<' :: '>' :: stripTagsGo rest2
        else stripTagsGo (dropTag (d :: rest2))
    else c :: stripTagsGo rest
termination_by l => l.length
decreasing_by
  · simp only [List.length_cons]
    exact Nat.lt_succ_of_lt (Nat.lt_succ_of_le (Nat.le_refl _))
  · simp only [List.length_cons]
    exact Nat.lt_succ_of_le (dropTag_length_le _)
  · simp only [List.length_cons]
    exact Nat.lt_succ_of_le (Nat.le_refl _)

/-- Replace every non-overlapping occurrence of `p :: pat` by `repl`,
scanning left to right — JS `String.prototype.replace` with a global
literal pattern. -/
def replaceAllAux (p : Char) (pat repl : List Char) : List Char → List Char
  | [] => []
  | c :: rest =>
    if List.isPrefixOf (p :: pat) (c :: rest) then
      repl ++ replaceAllAux p pat repl (rest.drop pat.length)
    else
      c :: replaceAllAux p pat repl rest
termination_by l => l.length
decreasing_by
  · simp only [List.length_cons, List.length_drop]
    exact Nat.lt_succ_of_le (Nat.sub_le _ _)
  · simp only [List.length_cons]
    exact Nat.lt_succ_of_le (Nat.le_refl _)

/-- JS `s.replace(pat, repl)` for a global literal pattern. -/
def strReplaceAll (s pat repl : String) : String :=
  match pat.data with
  | [] => s
  | p :: ps => String.mk (replaceAllAux p ps repl.data s.data)

/-- The snippet cleanup of bookProcessor.js lines 265-269: strip HTML
tags, then decode the three HTML entities, in source order. -/
def cleanSnippet (s : String) : String :=
  strReplaceAll
    (strReplaceAll
      (strReplaceAll (String.mk (stripTagsGo s.data)) "&quot;" "\"")
      "&apos;" "\x27")
    "&amp;" "&"

/-- The external calls `fetchBookPreviewText` makes, one flag or datum per
provider interaction; `…Ok := false` models that call throwing. -/
structure CascadeEnv where
  detailOk : Bool
  hasAccessInfo : Bool
  viewability : String
  pageOk : Bool
  pageContent : Option String
  olOk : Bool
  olRecordPresent : Bool
  olPreviewFull : Bool
  iaId : Option String
  iaOk : Bool
  iaFullText : String
  openAIKey : Bool
  aiOk : Bool
  aiText : String
  snippetOk : Bool
  snippet : Option String

/-- Method 1, provider page content (bookProcessor.js lines 151-186):
detail fetch succeeded, an accessInfo with PARTIAL or ALL_PAGES
viewability, the page request succeeded and its content field is truthy. -/
def method1Text (env : CascadeEnv) : String :=
  if env.detailOk && env.hasAccessInfo
     && (env.viewability == "PARTIAL" || env.viewability == "ALL_PAGES")
     && env.pageOk
  then env.pageContent.getD "" else ""

/-- Method 2, archive full text (bookProcessor.js lines 190-231): Open
Library lookup succeeded with a record whose preview is "full" and which
names an archive identifier, the archive text fetch succeeded, and the
computed window passes the length test — otherwise this method yields
nothing. -/
def method2Text (env : CascadeEnv) (book : BookInfo) : String :=
  if env.olOk && env.olRecordPresent && env.olPreviewFull
     && env.iaId.isSome && env.iaOk then
    if archiveAccept env.iaFullText book.isFiction then
      archiveWindow env.iaFullText book.isFiction
    else ""
  else ""

/-- `formatBookPageContent(bookInfo, pageContent, sourceInfo)`
(bookProcessor.js lines 292-309). -/
def formatBookPageContent (book : BookInfo) (pageContent sourceInfo : String) : String :=
  let pageType := if book.isFiction then "Second" else "First"
  let content := "# " ++ book.title ++ "\n\n" ++ "By " ++ book.author ++ "\n\n"
    ++ "## " ++ pageType ++ " Page Content\n\n" ++ pageContent ++ "\n\n"
  let content :=
    if !(strIncludes sourceInfo "AI-generated")
    then content ++ "Source: " ++ sourceInfo ++ "\n\n" else content
  content ++ "Note: This preview is provided as a sample of the "
    ++ lower pageType
    ++ " page of content. For the full text, please purchase the book."

/-- `createFallbackPreviewMessage(bookInfo)` (bookProcessor.js lines
311-337), the templated unavailable message. -/
def createFallbackPreviewMessage (book : BookInfo) : String :=
  let pageType := if book.isFiction then "second" else "first"
  let message := "# " ++ book.title ++ " by " ++ book.author ++ "\n\n"
  let message := if (book.description.getD "") ≠ ""
    then message ++ "## Description\n\n" ++ book.description.getD "" ++ "\n\n"
    else message
  let message := message ++ "We were unable to access the " ++ pageType
    ++ " page text for this book. "
    ++ "Since this is a " ++ (if book.isFiction then "fiction" else "non-fiction")
    ++ " book, "
    ++ "we would normally show you the " ++ pageType ++ " page of actual content.\n\n"
  let message := if (book.previewLink.getD "") ≠ ""
    then message ++ "You can [view the book preview on Google Books]("
      ++ book.previewLink.getD "" ++ ") to read sample pages.\n\n"
    else message
  let message := message ++ "Alternatively, you might find previews on:\n"
    ++ "- The publisher\x27s website\n"
  let message := if (book.isbn.getD "") ≠ ""
    then message ++ "- Open Library (ISBN: " ++ book.isbn.getD "" ++ ")\n"
    else message
  message ++ "- Amazon\x27s \"Look Inside\" feature\n"
    ++ "- Your local library\x27s digital collection"

/-- The observable outcome of one cascade run: the returned string, the
final `sourceInfo` variable, and which method bodies were entered
(method 1's try block always runs; methods 2-4 sit behind the
`!previewText`-style guards of the source; `usedFallback` marks the final
`if (!previewText)` return). -/
structure CascadeResult where
  text : String
  sourceInfo : String
  m1Invoked : Bool
  m2Invoked : Bool
  m3Invoked : Bool
  m4Invoked : Bool
  usedFallback : Bool
deriving DecidableEq

/-- The value of `previewText` after method 1: its try block always runs. -/
def cascadePv1 (env : CascadeEnv) : String := method1Text env

/-- The guard of method 2 (line 189): `!previewText && bookInfo.isbn`. -/
def cascadeM2inv (env : CascadeEnv) (book : BookInfo) : Bool :=
  decide (cascadePv1 env = "" ∧ (book.isbn.getD "") ≠ "")

/-- `previewText` after method 2: the accepted archive window when the
method ran and succeeded, unchanged otherwise. -/
def cascadePv2 (env : CascadeEnv) (book : BookInfo) : String :=
  if cascadeM2inv env book then method2Text env book else cascadePv1 env

/-- The guard of method 3 (line 235):
`!previewText && bookInfo.description && process.env.OPENAI_API_KEY`. -/
def cascadeM3inv (env : CascadeEnv) (book : BookInfo) : Bool :=
  decide (cascadePv2 env book = "" ∧ (book.description.getD "") ≠ ""
          ∧ env.openAIKey = true)

/-- `previewText` after method 3: the generated text when the guarded
call ran and did not throw (the JS assigns whatever text came back, even
empty), unchanged otherwise. -/
def cascadePv3 (env : CascadeEnv) (book : BookInfo) : String :=
  if cascadeM3inv env book && env.aiOk then env.aiText else cascadePv2 env book

/-- The guard of method 4 (line 261): `!previewText`. -/
def cascadeM4inv (env : CascadeEnv) (book : BookInfo) : Bool :=
  decide (cascadePv3 env book = "")

/-- Method 4 both ran and found a truthy snippet to clean and assign. -/
def cascadeM4got (env : CascadeEnv) (book : BookInfo) : Bool :=
  cascadeM4inv env book && env.snippetOk && decide ((env.snippet.getD "") ≠ "")

/-- `previewText` after method 4. -/
def cascadePv4 (env : CascadeEnv) (book : BookInfo) : String :=
  if cascadeM4got env book then cleanSnippet (env.snippet.getD "") else cascadePv3 env book

/-- The `sourceInfo` variable at the end of the cascade: each method that
assigned `previewText` also stamped its provenance label. -/
def cascadeSource (env : CascadeEnv) (book : BookInfo) : String :=
  let s1 := if cascadePv1 env ≠ "" then "Google Books API page content" else ""
  let s2 := if cascadeM2inv env book && decide (method2Text env book ≠ "")
    then "Internet Archive full text" else s1
  let s3 := if cascadeM3inv env book && env.aiOk
    then "AI-generated excerpt based on book description" else s2
  if cascadeM4got env book then "Google Books snippet" else s3

/-- `fetchBookPreviewText(bookInfo)` (bookProcessor.js lines 138-290):
the strict waterfall.  `previewText` starts empty; method 2 runs only
while it is still empty and an ISBN is truthy; method 3 only while empty
with a truthy description and an API key; method 4 only while empty; the
templated message is returned only if everything left it empty, else the
formatted page content with the recorded `sourceInfo`.  Every provider
error is caught inside its own method and simply leaves `previewText`
unchanged. -/
def fetchBookPreviewText (env : CascadeEnv) (book : BookInfo) : CascadeResult :=
  let pv4 := cascadePv4 env book
  { text := if pv4 = "" then createFallbackPreviewMessage book
            else formatBookPageContent book pv4 (cascadeSource env book),
    sourceInfo := cascadeSource env book,
    m1Invoked := true,
    m2Invoked := cascadeM2inv env book,
    m3Invoked := cascadeM3inv env book,
    m4Invoked := cascadeM4inv env book,
    usedFallback := decide (pv4 = "") }

/- ===== Concrete test fixtures ===== -/

/-- A fiction run where the classifier affirms immediately and the
page-turn control still works: launch and navigation succeed, every page
has a non-empty screenshot, the classifier affirms page 1 and denies all
others, every click succeeds, and no filesystem fault occurs. -/
def c1Env : ViewerEnv :=
  { launchOk := true, navOk := true, shotFault := fun _ => false,
    image := fun p => "page" ++ toString p,
    reply := fun p => some (if p = 1 then "yes" else "no"),
    clickOk := fun _ => true, saveFault := false }

/-- A run where the classifier never affirms and the page-turn control
can never be activated (end of preview from the start). -/
def c3Env : ViewerEnv :=
  { launchOk := true, navOk := true, shotFault := fun _ => false,
    image := fun _ => "img",
    reply := fun _ => some "no",
    clickOk := fun _ => false, saveFault := false }

/-- A plain successful-navigation run used to witness session teardown. -/
def c4Env : ViewerEnv :=
  { launchOk := true, navOk := true, shotFault := fun _ => false,
    image := fun _ => "img",
    reply := fun p => some (if p = 3 then "yes" else "no"),
    clickOk := fun _ => true, saveFault := false }

/-- A run used to witness the classification-call ceiling. -/
def c5Env : ViewerEnv :=
  { launchOk := true, navOk := true, shotFault := fun _ => false,
    image := fun _ => "img",
    reply := fun _ => some "not yet",
    clickOk := fun _ => true, saveFault := false }

/-- A run whose classifier model call throws on every page. -/
def c9Env : ViewerEnv :=
  { launchOk := true, navOk := true, shotFault := fun _ => false,
    image := fun _ => "img",
    reply := fun _ => none,
    clickOk := fun _ => true, saveFault := false }

/-- A run where the first page is affirmed and pushed, after which the
debug write to disk throws, driving the function onto its catch path. -/
def c10Env : ViewerEnv :=
  { launchOk := true, navOk := true, shotFault := fun _ => false,
    image := fun _ => "img",
    reply := fun _ => some "yes",
    clickOk := fun _ => true, saveFault := true }

/-- Provider record with no category tags whose description carries a
non-fiction cue ("guide") and whose five-word title earns no bonus. -/
def c8Record : ProviderRecord :=
  { title := "Some Test Title Of Words", authors := ["A"], categories := [],
    description := some "a guide", previewLink := none, volumeId := "vol1",
    isbn13 := none, isbn10 := none }

/-- Environment whose exact-ISBN lookup returns `c8Record`. -/
def c8Env : ResolverEnv :=
  { isbnLookup := fun _ => some c8Record, search := fun _ => none }

/-- Identity guess carrying an ISBN, so resolution takes the exact-ISBN
path. -/
def c8Details : BookDetails :=
  { title := some "T", author := none, isbn := some "9990001112223",
    isFiction := none }

/-- Cascade environment where method 1 yields nothing and the archive
supplies one 210-character paragraph, so method 2 wins. -/
def c6Env : CascadeEnv :=
  { detailOk := false, hasAccessInfo := false, viewability := "", pageOk := false,
    pageContent := none, olOk := true, olRecordPresent := true,
    olPreviewFull := true, iaId := some "ia0", iaOk := true,
    iaFullText := String.mk (List.replicate 210 'a'),
    openAIKey := true, aiOk := true, aiText := "unused",
    snippetOk := true, snippet := some "unused" }

/-- Book identity used with `c6Env`. -/
def c6Book : BookInfo :=
  { title := "T", author := "A", isFiction := false, isbn := some "i",
    description := some "d", previewLink := none, volumeId := none }

/- ===== Helper lemmas ===== -/

theorem attemptClick_classCalls (env : ViewerEnv) (s : LoopSt) :
    (attemptClick env s).classCalls = s.classCalls := rfl

theorem attemptClick_clickAttempts (env : ViewerEnv) (s : LoopSt) :
    (attemptClick env s).clickAttempts = s.clickAttempts + 1 := rfl

theorem attemptClick_innerPushes (env : ViewerEnv) (s : LoopSt) :
    (attemptClick env s).innerPushes = s.innerPushes := rfl

theorem runLoop_st_classCalls_le (env : ViewerEnv) (fiction : Bool) :
    ∀ (fuel i : Nat) (st : LoopSt),
      ((runLoop env fiction fuel i st).st).classCalls ≤ st.classCalls + fuel := by
  intro fuel
  induction fuel with
  | zero =>
    intro i st
    simp [runLoop, LoopOut.st]
  | succ n ih =>
    intro i st
    rw [runLoop]
    by_cases hf : env.shotFault i = true
    · simp [hf, LoopOut.st]
    · rw [if_neg hf]
      by_cases hff : (isFirstPage (env.reply st.page)).getD false = false
      · rw [if_pos hff]
        refine le_trans (ih (i + 1) _) ?_
        simp only [attemptClick]
        omega
      · rw [if_neg hff]
        by_cases hsh : (env.image st.page).length > 0
        · rw [if_pos hsh]
          by_cases hsv : env.saveFault = true
          · rw [if_pos hsv]
            cases fiction <;> simp [LoopOut.st, attemptClick]
          · rw [if_neg hsv]
            cases fiction <;> simp [LoopOut.st, attemptClick]
        · rw [if_neg hsh]
          refine le_trans (ih (i + 1) _) ?_
          dsimp only
          omega

theorem runLoop_never_affirmed (env : ViewerEnv) (fiction : Bool)
    (hsf : ∀ j, env.shotFault j = false)
    (hno : ∀ p, (isFirstPage (env.reply p)).getD false = false) :
    ∀ (fuel i : Nat) (st : LoopSt),
      ∃ st', runLoop env fiction fuel i st = .exhausted st'
        ∧ st'.classCalls = st.classCalls + fuel
        ∧ st'.clickAttempts = st.clickAttempts + fuel
        ∧ st'.innerPushes = st.innerPushes := by
  intro fuel
  induction fuel with
  | zero =>
    intro i st
    exact ⟨st, rfl, rfl, rfl, rfl⟩
  | succ n ih =>
    intro i st
    rw [runLoop]
    rw [if_neg (by simp [hsf i])]
    rw [if_pos (hno st.page)]
    obtain ⟨st', h1, h2, h3, h4⟩ := ih (i + 1) (attemptClick env { st with classCalls := st.classCalls + 1 })
    refine ⟨st', h1, ?_, ?_, ?_⟩
    · rw [h2]; simp only [attemptClick]; omega
    · rw [h3]; simp only [attemptClick]; omega
    · rw [h4]; simp only [attemptClick]

theorem isFirstPage_coerce (env : ViewerEnv) (p : Nat) :
    (isFirstPage ((coerceNoReply env).reply p)).getD false
      = (isFirstPage (env.reply p)).getD false := by
  cases h : env.reply p with
  | some t => simp [coerceNoReply, isFirstPage, h]
  | none => simp [coerceNoReply, isFirstPage, h]; rfl

theorem attemptClick_coerce (env : ViewerEnv) (s : LoopSt) :
    attemptClick (coerceNoReply env) s = attemptClick env s := rfl

theorem runLoop_coerce (env : ViewerEnv) (fiction : Bool) :
    ∀ (fuel i : Nat) (st : LoopSt),
      runLoop (coerceNoReply env) fiction fuel i st = runLoop env fiction fuel i st := by
  intro fuel
  induction fuel with
  | zero => intro i st; rfl
  | succ n ih =>
    intro i st
    rw [runLoop, runLoop]
    have hsf : (coerceNoReply env).shotFault = env.shotFault := rfl
    have him : (coerceNoReply env).image = env.image := rfl
    have hsv : (coerceNoReply env).saveFault = env.saveFault := rfl
    simp only [hsf, him, hsv, isFirstPage_coerce, attemptClick_coerce, ih]

/- ===== Claim theorems: page locator loop ===== -/

/-- C1: on the fiction run `c1Env` the classifier affirms page 1 and the
further page-advance succeeds (the viewer ends on page 2 after exactly one
click), yet the single retained screenshot is the capture of page 1 made
BEFORE that advance — the code never re-captures after clicking, so the
claimed "screenshot of the resulting second page" is never what is
retained.  This demonstrates the divergence between the code and the
spec's stated fiction policy. -/
theorem fiction_capture_is_first_page_image :
    (extractBookScreenshots c1Env true).success = true ∧
    (extractBookScreenshots c1Env true).clickAttempts = 1 ∧
    (extractBookScreenshots c1Env true).finalPage = 2 ∧
    (extractBookScreenshots c1Env true).screenshots =
      [{ index := 1, page := 1, data := c1Env.image 1 }] := by
  refine ⟨?_, ?_, ?_, ?_⟩ <;> decide

/-- C3 counterexample: with the classifier always answering "not yet" and
the page-turn control never activatable (`c3Env`), the loop does NOT
terminate at the first failed click: it re-attempts the click on all 15
iterations (15 click attempts, 15 classification calls), refuting the
claim that a failed activation ends the loop at once. -/
theorem click_failure_not_terminal :
    (extractBookScreenshots c3Env false).clickAttempts = 15 ∧
    (extractBookScreenshots c3Env false).classifierCalls = 15 ∧
    ¬ (extractBookScreenshots c3Env false).clickAttempts = 1 := by
  refine ⟨?_, ?_, ?_⟩ <;> decide

/-- C3 amended: a failed page-turn activation after a "not yet" verdict is
caught and only logged; the loop proceeds to the next iteration (so the
click is re-attempted on every later iteration) and, when no page is ever
classified as first content, the run ends after the 15-attempt ceiling as
a plain not-found result: no error path, `success = false`, no
screenshots, 15 classification calls and 15 click attempts. -/
theorem click_failure_caught_loop_continues :
    ∀ (env : ViewerEnv) (fiction : Bool),
      env.launchOk = true → env.navOk = true →
      (∀ j, env.shotFault j = false) →
      (∀ p, (isFirstPage (env.reply p)).getD false = false) →
      (extractBookScreenshots env fiction).errorPath = false ∧
      (extractBookScreenshots env fiction).success = false ∧
      (extractBookScreenshots env fiction).screenshots = [] ∧
      (extractBookScreenshots env fiction).classifierCalls = 15 ∧
      (extractBookScreenshots env fiction).clickAttempts = 15 := by
  intro env fiction hl hn hsf hno
  obtain ⟨st', h1, h2, h3, h4⟩ :=
    runLoop_never_affirmed env fiction hsf hno 15 1
      { page := 1, classCalls := 0, clickAttempts := 0, innerPushes := 0 }
  unfold extractBookScreenshots
  rw [hl, hn]
  simp only [Bool.true_eq_false, if_false, h1]
  exact ⟨trivial, trivial, trivial, by rw [h2], by rw [h3]⟩

/-- C3 witness: the amended statement instantiated on the concrete
end-of-preview run `c3Env`. -/
theorem click_failure_caught_witness :
    (extractBookScreenshots c3Env false).errorPath = false ∧
    (extractBookScreenshots c3Env false).success = false ∧
    (extractBookScreenshots c3Env false).screenshots = [] ∧
    (extractBookScreenshots c3Env false).classifierCalls = 15 ∧
    (extractBookScreenshots c3Env false).clickAttempts = 15 :=
  click_failure_caught_loop_continues c3Env false rfl rfl (fun _ => rfl) (fun _ => rfl)

/-- C4: whenever the browser session was launched, `close()` runs before
`extractBookScreenshots` returns — the `finally` block makes teardown
unconditional on the successful-find, exhaustion and error exits alike. -/
theorem session_close_unconditional :
    ∀ (env : ViewerEnv) (fiction : Bool),
      (extractBookScreenshots env fiction).launched = true →
      (extractBookScreenshots env fiction).closed = true := by
  intro env fiction
  unfold extractBookScreenshots
  by_cases hl : env.launchOk = false
  · simp [hl]
  · by_cases hn : env.navOk = false
    · simp [hl, hn]
    · simp only [hl, hn, if_false]
      cases h : runLoop env fiction 15 1
        { page := 1, classCalls := 0, clickAttempts := 0, innerPushes := 0 } <;>
        simp [h]

/-- C4 witness: teardown on a concrete successful-find run. -/
theorem session_close_witness :
    (extractBookScreenshots c4Env false).closed = true :=
  session_close_unconditional c4Env false (by decide)

/-- C5: one run of the page-locator loop issues at most 15 classification
calls — one per iteration of the attempt-ceiling-bounded loop, fewer when
it exits early on a found page or a fault. -/
theorem classification_call_ceiling :
    ∀ (env : ViewerEnv) (fiction : Bool),
      (extractBookScreenshots env fiction).classifierCalls ≤ 15 := by
  intro env fiction
  unfold extractBookScreenshots
  by_cases hl : env.launchOk = false
  · simp [hl]
  · by_cases hn : env.navOk = false
    · simp [hl, hn]
    · simp only [hl, hn, if_false]
      have hle := runLoop_st_classCalls_le env fiction 15 1
        { page := 1, classCalls := 0, clickAttempts := 0, innerPushes := 0 }
      cases h : runLoop env fiction 15 1
        { page := 1, classCalls := 0, clickAttempts := 0, innerPushes := 0 } <;>
        rw [h] at hle <;> simpa [LoopOut.st] using hle

/-- C5 witness: the ceiling instantiated on a concrete run that exhausts
all attempts. -/
theorem classification_call_ceiling_witness :
    (extractBookScreenshots c5Env false).classifierCalls ≤ 15 :=
  classification_call_ceiling c5Env false

/-- C9: `isFirstPage` returns undefined (`none`) when the model call
throws, and the loop's `?? false` coercion makes such a failure behave
exactly like a "not yet" verdict: replacing every throwing classifier
call by an explicit "no" reply leaves the whole run unchanged — same
advances, same exit, same result. -/
theorem classifier_throw_behaves_as_not_yet :
    isFirstPage none = none ∧
    ∀ (env : ViewerEnv) (fiction : Bool),
      extractBookScreenshots (coerceNoReply env) fiction =
        extractBookScreenshots env fiction := by
  refine ⟨rfl, ?_⟩
  intro env fiction
  unfold extractBookScreenshots
  have hl : (coerceNoReply env).launchOk = env.launchOk := rfl
  have hn : (coerceNoReply env).navOk = env.navOk := rfl
  rw [hl, hn, runLoop_coerce]

/-- C9 witness: a run whose classifier call throws on every page equals
the same run with explicit "no" replies. -/
theorem classifier_throw_witness :
    extractBookScreenshots (coerceNoReply c9Env) false =
      extractBookScreenshots c9Env false :=
  classifier_throw_behaves_as_not_yet.2 c9Env false

/-- C10: every error-path exit of `extractBookScreenshots` returns
`success = false` with an empty screenshots list — the catch branch
returns the outer array that the loop never pushes to (the loop's pushes
go to the inner, shadowing array). -/
theorem catch_path_returns_outer_array :
    ∀ (env : ViewerEnv) (fiction : Bool),
      (extractBookScreenshots env fiction).errorPath = true →
      (extractBookScreenshots env fiction).success = false ∧
      (extractBookScreenshots env fiction).screenshots = [] := by
  intro env fiction
  unfold extractBookScreenshots
  by_cases hl : env.launchOk = false
  · simp [hl]
  · by_cases hn : env.navOk = false
    · simp [hl, hn]
    · simp only [hl, hn, if_false]
      cases h : runLoop env fiction 15 1
        { page := 1, classCalls := 0, clickAttempts := 0, innerPushes := 0 } <;>
        simp [h]

/-- C10 witness: on `c10Env` the debug disk write throws AFTER the found
screenshot was pushed to the (shadowed) inner array, and the error-path
result still reports no success and an empty screenshots list. -/
theorem catch_path_witness :
    (extractBookScreenshots c10Env false).errorPath = true ∧
    (extractBookScreenshots c10Env false).innerPushes = 1 ∧
    ((extractBookScreenshots c10Env false).success = false ∧
     (extractBookScreenshots c10Env false).screenshots = []) :=
  ⟨by decide, by decide, catch_path_returns_outer_array c10Env false (by decide)⟩

/- ===== Claim theorems: fiction classification and resolver paths ===== -/

theorem orNull_getD (o : Option String) : (orNull o).getD "" = o.getD "" := by
  cases o with
  | none => rfl
  | some s => by_cases h : s = "" <;> simp [orNull, h]

/-- The source's greater/less/tie decision chain equals a single
"at least" test (ties default to the then-side). -/
theorem triCompare (a b : Nat) :
    (if b < a then true else if a < b then false else true) = decide (b ≤ a) := by
  by_cases hle : b ≤ a
  · have hd : decide (b ≤ a) = true := by simpa using hle
    rw [hd]
    by_cases h1 : b < a
    · rw [if_pos h1]
    · rw [if_neg h1, if_neg (by omega)]
  · have hd : decide (b ≤ a) = false := by simpa using hle
    rw [hd, if_neg (by omega), if_pos (by omega)]

/-- C2 counterexample: the Dune example of the spec fails on the code —
the substring keyword check fires on "science" inside "science fiction",
so the tags ["Fiction","Science Fiction"] classify as NON-fiction. -/
theorem dune_tags_counterexample :
    isFictionCategory ["Fiction", "Science Fiction"] = false := by decide

/-- C2 amended: the Dune tag list classifies as `isFiction = false`
(because "science fiction" contains the non-fiction keyword "science"),
and in general a non-empty tag list none of whose entries carries a
non-fiction signal (a keyword occurrence or an explicit
non-fiction/nonfiction marker) classifies as fiction. -/
theorem dune_tags_amended :
    isFictionCategory ["Fiction", "Science Fiction"] = false ∧
    ∀ (categories : List String), categories ≠ [] →
      (∀ c ∈ categories, categoryNonFictionSignal c = false) →
      isFictionCategory categories = true := by
  refine ⟨by decide, ?_⟩
  intro cats hne hall
  unfold isFictionCategory
  rw [if_neg (by simpa [List.length_eq_zero] using hne)]
  have hany : cats.any categoryNonFictionSignal = false := by
    rw [List.any_eq_false]
    intro c hc
    simp [hall c hc]
  rw [hany]
  rfl

/-- C2 witness: a clean tag list really classifies as fiction. -/
theorem dune_tags_witness :
    isFictionCategory ["Fantasy"] = true :=
  dune_tags_amended.2 ["Fantasy"] (by decide) (by decide)

/-- C8 counterexample: on the exact-ISBN path the weighted heuristic is
NOT applied.  For `c8Env`/`c8Details` the lookup returns a record with no
category tags, a description containing "guide" and a five-word title;
the resolver reports `isFiction = true` (the no-tag default of the
category check), while the weighted heuristic on the same record's data
yields `false`. -/
theorem isbn_path_ignores_heuristic_counterexample :
    (fetchBookInfo c8Env c8Details).isFiction = true ∧
    improvedFictionDetection []
      ((fetchBookInfo c8Env c8Details).description.getD "")
      (fetchBookInfo c8Env c8Details).title = false := by
  refine ⟨?_, ?_⟩ <;> decide

/-- C8 amended: the weighted description/title heuristic is applied on
the title/author search path (whose returned object has no category
field, so the heuristic always runs there), while the exact-ISBN path
computes `isFiction` from the provider category tags alone, defaulting to
fiction when none exist; and the heuristic itself matches the spec's
description (scaled scores, instructional-title bonus, short-title bonus,
higher score wins, ties default to fiction). -/
theorem isbn_path_ignores_heuristic_amended :
    (∀ (env : ResolverEnv) (bd : BookDetails) (isbn : String) (r : ProviderRecord),
        bd.isbn = some isbn → isbn ≠ "" → env.isbnLookup isbn = some r →
        (fetchBookInfo env bd).isFiction = isFictionCategory r.categories) ∧
    (∀ (env : ResolverEnv) (bd : BookDetails) (t : String) (r : ProviderRecord),
        isbnPathResult env bd = none → bd.title = some t → t ≠ "" →
        env.search (searchQueryOf bd t) = some r →
        (fetchBookInfo env bd).isFiction =
          improvedFictionDetection [] (r.description.getD "") r.title) ∧
    (∀ description title : String,
        improvedFictionDetection [] description title =
          specHeuristicIsFiction description title) := by
  refine ⟨?_, ?_, ?_⟩
  · intro env bd isbn r hbd hne hlook
    unfold fetchBookInfo isbnPathResult
    rw [hbd]
    dsimp only
    rw [if_pos hne]
    unfold fetchBookByISBN
    rw [hlook]
    simp [bookInfoOfISBN]
  · intro env bd t r hnone ht htne hsearch
    unfold fetchBookInfo
    rw [hnone]
    dsimp only
    rw [ht]
    dsimp only
    rw [if_pos htne]
    unfold searchBookAPI
    rw [hsearch]
    simp [bookInfoOfSearch, orNull_getD]
  · intro d t
    unfold improvedFictionDetection specHeuristicIsFiction
    rw [if_neg (by simp)]
    by_cases hd : d = ""
    · subst hd
      have hf : countSignals "" fictionWords = 0 := by decide
      have hn : countSignals "" nonfictionWords = 0 := by decide
      simp only [hf, hn, Nat.mul_zero, Nat.zero_add, ne_eq, not_true_eq_false,
        if_false, reduceIte]
      exact triCompare _ _
    · simp only [ne_eq, hd, not_false_eq_true, if_true, if_pos]
      exact triCompare _ _

/-- C8 witness: the amended statement instantiated on the concrete
exact-ISBN resolution and on the concrete heuristic inputs. -/
theorem isbn_path_ignores_heuristic_witness :
    (fetchBookInfo c8Env c8Details).isFiction = isFictionCategory c8Record.categories ∧
    improvedFictionDetection [] "a guide" "Some Test Title Of Words" =
      specHeuristicIsFiction "a guide" "Some Test Title Of Words" :=
  ⟨isbn_path_ignores_heuristic_amended.1 c8Env c8Details "9990001112223" c8Record rfl
      (by decide) rfl,
   isbn_path_ignores_heuristic_amended.2.2 "a guide" "Some Test Title Of Words"⟩

/- ===== Claim theorems: fallback text cascade ===== -/

/-- The two window formulations coincide. -/
theorem archiveWindow_eq_spec (fullText : String) (fiction : Bool) :
    archiveWindow fullText fiction = specArchiveWindow fullText fiction := by
  unfold archiveWindow specArchiveWindow
  cases fiction <;> simp [Nat.min_comm]

/-- C7: the archive full-text method's window is computed exactly as the
spec states — blank-line paragraph split, content start at the minimum of
30 and a tenth of the paragraph count, five further paragraphs skipped
for fiction, ten paragraphs joined by blank lines — and the window is
accepted exactly when it exceeds 200 characters (an accepted window in
particular being non-empty); consequently whatever text the method hands
to the cascade is that very window. -/
theorem archive_window_refinement :
    (∀ (fullText : String) (fiction : Bool),
        archiveWindow fullText fiction = specArchiveWindow fullText fiction) ∧
    (∀ (fullText : String) (fiction : Bool),
        archiveAccept fullText fiction = true ↔
          200 < (specArchiveWindow fullText fiction).length) ∧
    (∀ (env : CascadeEnv) (book : BookInfo),
        method2Text env book ≠ "" →
        method2Text env book = specArchiveWindow env.iaFullText book.isFiction ∧
          200 < (method2Text env book).length) := by
  refine ⟨archiveWindow_eq_spec, ?_, ?_⟩
  · intro ft fic
    unfold archiveAccept
    rw [← archiveWindow_eq_spec]
    constructor
    · intro h
      exact (of_decide_eq_true h).2
    · intro h
      refine decide_eq_true ⟨?_, h⟩
      intro heq
      rw [heq] at h
      simp at h
  · intro env book h
    unfold method2Text at h ⊢
    by_cases hg : (env.olOk && env.olRecordPresent && env.olPreviewFull
        && env.iaId.isSome && env.iaOk) = true
    · rw [if_pos hg] at h ⊢
      by_cases ha : archiveAccept env.iaFullText book.isFiction = true
      · rw [if_pos ha] at h ⊢
        have hp := of_decide_eq_true (by rwa [archiveAccept] at ha)
        exact ⟨archiveWindow_eq_spec _ _, hp.2⟩
      · rw [if_neg ha] at h
        exact absurd rfl h
    · rw [if_neg hg] at h
      exact absurd rfl h

set_option maxRecDepth 8000 in
/-- C7 witness: the refinement instantiated on a concrete transcript and
on the concrete cascade environment whose archive method succeeds. -/
theorem archive_window_refinement_witness :
    archiveWindow "p1\n\np2\n\np3" true = specArchiveWindow "p1\n\np2\n\np3" true ∧
    (method2Text c6Env c6Book = specArchiveWindow c6Env.iaFullText c6Book.isFiction ∧
      200 < (method2Text c6Env c6Book).length) :=
  ⟨archive_window_refinement.1 "p1\n\np2\n\np3" true,
   archive_window_refinement.2.2 c6Env c6Book (by decide)⟩

/-- When method 1 yields text, nothing later runs and its text wins. -/
theorem cascade_m1_wins (env : CascadeEnv) (book : BookInfo)
    (h : method1Text env ≠ "") :
    fetchBookPreviewText env book =
      { text := formatBookPageContent book (method1Text env)
          "Google Books API page content",
        sourceInfo := "Google Books API page content",
        m1Invoked := true, m2Invoked := false, m3Invoked := false,
        m4Invoked := false, usedFallback := false } := by
  have h2 : cascadeM2inv env book = false := by simp [cascadeM2inv, cascadePv1, h]
  have h3 : cascadePv2 env book = method1Text env := by
    simp [cascadePv2, h2, cascadePv1]
  have h4 : cascadeM3inv env book = false := by simp [cascadeM3inv, h3, h]
  have h5 : cascadePv3 env book = method1Text env := by simp [cascadePv3, h4, h3]
  have h6 : cascadeM4inv env book = false := by simp [cascadeM4inv, h5, h]
  have h7 : cascadeM4got env book = false := by simp [cascadeM4got, h6]
  have h8 : cascadePv4 env book = method1Text env := by simp [cascadePv4, h7, h5]
  have h9 : cascadeSource env book = "Google Books API page content" := by
    simp [cascadeSource, h2, h4, h7, cascadePv1, h]
  simp [fetchBookPreviewText, h8, h9, h, h2, h4, h6, h7]

/-- When method 1 yields nothing but the archive method runs and
succeeds, its window wins and methods 3-5 never run. -/
theorem cascade_m2_wins (env : CascadeEnv) (book : BookInfo)
    (h1 : method1Text env = "") (hi : (book.isbn.getD "") ≠ "")
    (h2 : method2Text env book ≠ "") :
    fetchBookPreviewText env book =
      { text := formatBookPageContent book (method2Text env book)
          "Internet Archive full text",
        sourceInfo := "Internet Archive full text",
        m1Invoked := true, m2Invoked := true, m3Invoked := false,
        m4Invoked := false, usedFallback := false } := by
  have hm2 : cascadeM2inv env book = true := by
    simp [cascadeM2inv, cascadePv1, h1, hi]
  have h3 : cascadePv2 env book = method2Text env book := by simp [cascadePv2, hm2]
  have h4 : cascadeM3inv env book = false := by simp [cascadeM3inv, h3, h2]
  have h5 : cascadePv3 env book = method2Text env book := by simp [cascadePv3, h4, h3]
  have h6 : cascadeM4inv env book = false := by simp [cascadeM4inv, h5, h2]
  have h7 : cascadeM4got env book = false := by simp [cascadeM4got, h6]
  have h8 : cascadePv4 env book = method2Text env book := by simp [cascadePv4, h7, h5]
  have h9 : cascadeSource env book = "Internet Archive full text" := by
    simp [cascadeSource, hm2, h2, h4, h7]
  simp [fetchBookPreviewText, h8, h9, h2, hm2, h4, h6, h7]

/-- When everything before it left no text and the guarded AI call
succeeds with non-empty text, that text wins and method 4 and the
fallback never run. -/
theorem cascade_m3_wins (env : CascadeEnv) (book : BookInfo)
    (hpv2 : cascadePv2 env book = "")
    (hd : (book.description.getD "") ≠ "") (hk : env.openAIKey = true)
    (ha : env.aiOk = true) (hat : env.aiText ≠ "") :
    (fetchBookPreviewText env book).text =
      formatBookPageContent book env.aiText
        "AI-generated excerpt based on book description"
    ∧ (fetchBookPreviewText env book).m3Invoked = true
    ∧ (fetchBookPreviewText env book).m4Invoked = false
    ∧ (fetchBookPreviewText env book).usedFallback = false := by
  have hm3 : cascadeM3inv env book = true := by simp [cascadeM3inv, hpv2, hd, hk]
  have h5 : cascadePv3 env book = env.aiText := by simp [cascadePv3, hm3, ha]
  have h6 : cascadeM4inv env book = false := by simp [cascadeM4inv, h5, hat]
  have h7 : cascadeM4got env book = false := by simp [cascadeM4got, h6]
  have h8 : cascadePv4 env book = env.aiText := by simp [cascadePv4, h7, h5]
  have h9 : cascadeSource env book =
      "AI-generated excerpt based on book description" := by
    simp [cascadeSource, hm3, ha, h7]
  simp [fetchBookPreviewText, h8, h9, hat, hm3, h6, h7]

/-- An archive-method run that yields nothing (error or rejected window)
falls through: method 3's guard is then evaluated on its own terms. -/
theorem cascade_m2_error_falls_through (env : CascadeEnv) (book : BookInfo)
    (hm2 : cascadeM2inv env book = true) (h2 : method2Text env book = "") :
    cascadeM3inv env book =
      decide ((book.description.getD "") ≠ "" ∧ env.openAIKey = true) := by
  have h3 : cascadePv2 env book = "" := by simp [cascadePv2, hm2, h2]
  simp [cascadeM3inv, h3]

/-- An AI call that throws leaves the text empty, so method 4 runs. -/
theorem cascade_m3_error_falls_through (env : CascadeEnv) (book : BookInfo)
    (hm3 : cascadeM3inv env book = true) (ha : env.aiOk = false) :
    cascadeM4inv env book = true := by
  have hpv2 : cascadePv2 env book = "" := by
    have := of_decide_eq_true hm3
    exact this.1
  simp [cascadeM4inv, cascadePv3, ha, hpv2]

/-- C6: the fallback text cascade is a strict waterfall in the fixed
order provider page-content, archive full-text, AI excerpt, snippet,
templated message: method 1's try block always runs; method 2 runs
exactly when method 1 yielded nothing and an ISBN is known; once a method
yields text every later method is skipped and its text and provenance
label are returned; a method that errors or yields nothing merely hands
control to the next guard; and the templated message is returned exactly
when every method left the text empty. -/
theorem cascade_strict_waterfall :
    ∀ (env : CascadeEnv) (book : BookInfo),
      ((fetchBookPreviewText env book).m1Invoked = true)
      ∧ ((fetchBookPreviewText env book).m2Invoked = true ↔
          (method1Text env = "" ∧ (book.isbn.getD "") ≠ ""))
      ∧ (method1Text env ≠ "" →
          fetchBookPreviewText env book =
            { text := formatBookPageContent book (method1Text env)
                "Google Books API page content",
              sourceInfo := "Google Books API page content",
              m1Invoked := true, m2Invoked := false, m3Invoked := false,
              m4Invoked := false, usedFallback := false })
      ∧ (method1Text env = "" → (book.isbn.getD "") ≠ "" →
         method2Text env book ≠ "" →
          fetchBookPreviewText env book =
            { text := formatBookPageContent book (method2Text env book)
                "Internet Archive full text",
              sourceInfo := "Internet Archive full text",
              m1Invoked := true, m2Invoked := true, m3Invoked := false,
              m4Invoked := false, usedFallback := false })
      ∧ (cascadePv2 env book = "" → (book.description.getD "") ≠ "" →
         env.openAIKey = true → env.aiOk = true → env.aiText ≠ "" →
          (fetchBookPreviewText env book).text =
            formatBookPageContent book env.aiText
              "AI-generated excerpt based on book description"
          ∧ (fetchBookPreviewText env book).m4Invoked = false
          ∧ (fetchBookPreviewText env book).usedFallback = false)
      ∧ ((fetchBookPreviewText env book).m2Invoked = true →
         method2Text env book = "" →
          ((fetchBookPreviewText env book).m3Invoked = true ↔
            ((book.description.getD "") ≠ "" ∧ env.openAIKey = true)))
      ∧ ((fetchBookPreviewText env book).m3Invoked = true → env.aiOk = false →
          (fetchBookPreviewText env book).m4Invoked = true)
      ∧ ((fetchBookPreviewText env book).usedFallback = true →
          (fetchBookPreviewText env book).text = createFallbackPreviewMessage book) := by
  intro env book
  refine ⟨rfl, ?_, ?_, ?_, ?_, ?_, ?_, ?_⟩
  · simp [fetchBookPreviewText, cascadeM2inv, cascadePv1]
  · intro h
    exact cascade_m1_wins env book h
  · intro h1 hi h2
    exact cascade_m2_wins env book h1 hi h2
  · intro hpv2 hd hk ha hat
    obtain ⟨t1, _, t3, t4⟩ := cascade_m3_wins env book hpv2 hd hk ha hat
    exact ⟨t1, t3, t4⟩
  · intro hm2 h2
    have := cascade_m2_error_falls_through env book hm2 h2
    simp only [fetchBookPreviewText] at *
    rw [this]
    simp
  · intro hm3 ha
    have := cascade_m3_error_falls_through env book hm3 ha
    simpa [fetchBookPreviewText] using this
  · intro hfb
    simp only [fetchBookPreviewText] at hfb ⊢
    have : cascadePv4 env book = "" := by simpa using hfb
    simp [this]

set_option maxRecDepth 8000 in
/-- C6 witness: on `c6Env`/`c6Book` method 1 yields nothing, the archive
method wins, and the cascade's result is exactly the archive outcome with
methods 3-5 skipped. -/
theorem cascade_strict_waterfall_witness :
    fetchBookPreviewText c6Env c6Book =
      { text := formatBookPageContent c6Book (method2Text c6Env c6Book)
          "Internet Archive full text",
        sourceInfo := "Internet Archive full text",
        m1Invoked := true, m2Invoked := true, m3Invoked := false,
        m4Invoked := false, usedFallback := false } :=
  (cascade_strict_waterfall c6Env c6Book).2.2.2.1 (by decide) (by decide) (by decide)
